import Mathlib

/-!
Shallow embedding of `src/core/components.tsx` (phelia).

Each React component in the source wraps a `toSlackElement` conversion rule
that receives the component's props together with a `reconcile` helper.  The
engine (not part of this file's source) resolves props/children; here every
conversion rule is embedded as a Lean function taking the already-resolved
values that `reconcile` would return:

* a resolved text-bearing prop is an `Option TextObj` (`none` models the JS
  value `undefined`, returned by `reconcile(undefined)`);
* the `fields` array that the Section-as-collector pattern produces
  (`reconcile(<Section>{children}</Section>)` followed by destructuring
  `fields`) is an `Option (List ResolvedChild)`;
* JS runtime failures (calling a missing method, spreading `undefined`) are
  modelled with `Except RtError`.

JS objects distinguish an absent field from a field holding `undefined`; the
embedding keeps that distinction only where a conversion rule observes it
(the `emoji` / `verbatim` fields of `TextObj`, which use
`Option (Option Bool)`: the outer layer is field presence, the inner layer the
JS value).  Elsewhere an absent field and a present-but-`undefined` field are
both `none`; they are indistinguishable after JSON serialization.
-/

/-- A JS runtime failure raised inside a conversion rule (e.g. calling
`option.isSelected()` on an object without that method, or spreading
`group.options` when the field is `undefined`). -/
inductive RtError where
  | typeError
deriving Repr, DecidableEq

/-- The two admissible values of the `type` prop of `Text`
(`"plain_text" | "mrkdwn"` in the TS source). -/
inductive TextType where
  | plain_text
  | mrkdwn
deriving Repr, DecidableEq

/-- The literal wire string of a `TextType`. -/
def TextType.toStr : TextType → String
  | plain_text => "plain_text"
  | mrkdwn => "mrkdwn"

/-- A resolved text element: the object a text-bearing prop reconciles to.
`emoji` and `verbatim` are `Option (Option Bool)`: the outer `Option` models
whether the field was assigned at all, the inner one the (possibly
`undefined`) JS value. -/
structure TextObj where
  type : String
  text : String := ""
  emoji : Option (Option Bool) := none
  verbatim : Option (Option Bool) := none
deriving Repr, DecidableEq

/-- Props of the `Text` component.  The `type` default mirrors
`Text.defaultProps = { type: "plain_text" }`. -/
structure TextProps where
  text : String
  emoji : Option Bool := none
  type : TextType := TextType.plain_text
  verbatim : Option Bool := none
deriving Repr, DecidableEq

/-- `Text`'s `toSlackElement`: builds `{ type: props.type, text: "" }`, then
assigns `verbatim` when the type is `"mrkdwn"` and `emoji` when it is
`"plain_text"` (the engine appends the actual text content afterwards). -/
def textToSlackElement (p : TextProps) : TextObj :=
  match p.type with
  | TextType.mrkdwn => { type := TextType.mrkdwn.toStr, verbatim := some p.verbatim }
  | TextType.plain_text => { type := TextType.plain_text.toStr, emoji := some p.emoji }

/-- The in-place mutation `x.type = "plain_text"` performed on a resolved
text object. -/
def setPlain (t : TextObj) : TextObj :=
  { t with type := "plain_text" }

/-- The guarded coercion pattern `if (instance.x) { instance.x.type =
"plain_text" }` used by Modal, Home, Input, TextField, DatePicker,
OptionGroup, Option (description) and both select menus (placeholder). -/
def coercePlain : Option TextObj → Option TextObj
  | some t => some (setPlain t)
  | none => none

/-- A resolved `Section` block.  The accessory is passed through unchanged and
never inspected, so it is modelled opaquely. -/
structure SectionInst where
  type : String := "section"
  text : Option TextObj := none
  accessory : Option Unit := none
deriving Repr, DecidableEq

/-- `Section`'s `toSlackElement`: assigns the resolved `text` and `accessory`
and then coerces the text to plain text only when its type is the raw-text
marker `"text"` (`if (instance.text && text.type === "text")`). -/
def sectionToSlackElement (accessory : Option Unit) (text : Option TextObj) : SectionInst :=
  let inst : SectionInst := { type := "section", text := text, accessory := accessory }
  match inst.text with
  | some t => if t.type = "text" then { inst with text := some (setPlain t) } else inst
  | none => inst

/-- A resolved `Confirm` object.  `isConfirm` models the presence of the
`isConfirm: () => true` closure the source attaches so that parents can
recognize the object (Slack forbids a `type` field here); it is
function-valued in the source and hence invisible to JSON serialization. -/
structure ConfirmInst where
  isConfirm : Bool := true
  style : Option String := none
  title : TextObj
  confirm : TextObj
  deny : TextObj
deriving Repr, DecidableEq

/-- `Confirm`'s `toSlackElement`: assigns the resolved `title`, `confirm` and
`deny` and then sets `.type = "plain_text"` on each of them without any
existence guard — if any of the three resolved to `undefined` the assignment
throws a TypeError (modelled as `RtError.typeError`). -/
def confirmToSlackElement (title confirm deny : Option TextObj) (style : Option String) :
    Except RtError ConfirmInst :=
  match title, confirm, deny with
  | some t, some c, some d =>
      Except.ok { isConfirm := true, style := style,
                  title := setPlain t, confirm := setPlain c, deny := setPlain d }
  | _, _, _ => Except.error RtError.typeError

/-- Whether a conversion result is a success. -/
def exceptIsOk {α : Type} : Except RtError α → Bool
  | Except.ok _ => true
  | Except.error _ => false

/-- A resolved `Option` element.  `isOption` and `isSelected` model the
behavioral-marker closures `isOption: () => true` and
`isSelected: () => props.selected`; `isSelected` stores the truthiness the
closure's return value has when tested (`undefined` is falsy). -/
structure OptionInst where
  isSelected : Bool := false
  isOption : Bool := true
  value : Option String := none
  url : Option String := none
  description : Option TextObj := none
deriving Repr, DecidableEq

/-- `Option`'s `toSlackElement`: records the markers, `value` and `url`, then
assigns the resolved `description` and coerces it to plain text when
present.  No check that `value` is supplied is performed. -/
def optionToSlackElement (selected : Option Bool) (value url : Option String)
    (description : Option TextObj) : OptionInst :=
  { isSelected := selected.getD false, isOption := true, value := value, url := url,
    description := coercePlain description }

/-- The spread `{ ...option, url: undefined }` used whenever an option is
reused as an initial selection. -/
def clearUrl (o : OptionInst) : OptionInst :=
  { o with url := none }

/-- A resolved `OptionGroup`.  `isOptionGroup` models the presence of the
`isOptionGroup: () => true` marker closure; `options` is the array the engine
fills with the group's resolved `Option` children, in declaration order. -/
structure OptionGroupInst where
  isOptionGroup : Bool := true
  options : List OptionInst := []
  label : Option TextObj := none
deriving Repr, DecidableEq

/-- `OptionGroup`'s `toSlackElement`: marker plus empty `options` array
(filled later by the engine), with the resolved `label` coerced to plain
text when present. -/
def optionGroupToSlackElement (label : Option TextObj) : OptionGroupInst :=
  { isOptionGroup := true, options := [], label := coercePlain label }

/-- One entry of the `fields` array collected by reconciling a `Section`
wrapped around a menu's children: either a resolved `Option` or a resolved
`OptionGroup`. -/
inductive ResolvedChild where
  | opt (o : OptionInst)
  | group (g : OptionGroupInst)
deriving Repr, DecidableEq

/-- A resolved `Button` element. -/
structure ButtonInst where
  type : String := "button"
  action_id : Option String := none
  style : Option String := none
  url : Option String := none
  text : TextObj
  confirm : Option ConfirmInst := none
deriving Repr, DecidableEq

/-- `Button`'s `toSlackElement`: copies `action`, `style`, `url`, synthesizes
a plain-text `text` carrying `props.emoji`, and attaches the resolved
`confirm`.  A missing `action` prop is copied through as `undefined`; nothing
is validated and no error can be raised. -/
def buttonToSlackElement (action style url : Option String) (emoji : Option Bool)
    (confirm : Option ConfirmInst) : ButtonInst :=
  { type := "button", action_id := action, style := style, url := url,
    text := { type := "plain_text", text := "", emoji := some emoji },
    confirm := confirm }

/-- A resolved `Modal` root (block children are appended by the engine and
not modelled). -/
structure ModalInst where
  type : String := "modal"
  blocks : List Unit := []
  title : Option TextObj := none
  submit : Option TextObj := none
  close : Option TextObj := none
deriving Repr, DecidableEq

/-- `Modal`'s `toSlackElement`: assigns the resolved `title`, `submit`,
`close` and coerces each to plain text when present. -/
def modalToSlackElement (title submit close : Option TextObj) : ModalInst :=
  { type := "modal", blocks := [],
    title := coercePlain title, submit := coercePlain submit, close := coercePlain close }

/-- A resolved `Home` root. -/
structure HomeInst where
  type : String := "home"
  blocks : List Unit := []
  title : Option TextObj := none
deriving Repr, DecidableEq

/-- `Home`'s `toSlackElement`. -/
def homeToSlackElement (title : Option TextObj) : HomeInst :=
  { type := "home", blocks := [], title := coercePlain title }

/-- A resolved `Input` block. -/
structure InputInst where
  type : String := "input"
  optional : Option Bool := none
  hint : Option TextObj := none
  label : Option TextObj := none
deriving Repr, DecidableEq

/-- `Input`'s `toSlackElement`: copies `optional`, assigns the resolved
`hint` and `label` and coerces each to plain text when present. -/
def inputToSlackElement (optional : Option Bool) (hint label : Option TextObj) : InputInst :=
  { type := "input", optional := optional,
    hint := coercePlain hint, label := coercePlain label }

/-- A resolved `TextField` element. -/
structure TextFieldInst where
  type : String := "plain_text_input"
  initial_value : Option String := none
  action_id : Option String := none
  max_length : Option Nat := none
  min_length : Option Nat := none
  multiline : Option Bool := none
  placeholder : Option TextObj := none
deriving Repr, DecidableEq

/-- `TextField`'s `toSlackElement`. -/
def textFieldToSlackElement (action initialValue : Option String)
    (maxLength minLength : Option Nat) (multiline : Option Bool)
    (placeholder : Option TextObj) : TextFieldInst :=
  { type := "plain_text_input", initial_value := initialValue, action_id := action,
    max_length := maxLength, min_length := minLength, multiline := multiline,
    placeholder := coercePlain placeholder }

/-- A resolved `DatePicker` element. -/
structure DatePickerInst where
  type : String := "datepicker"
  initial_date : Option String := none
  action_id : Option String := none
  placeholder : Option TextObj := none
  confirm : Option ConfirmInst := none
deriving Repr, DecidableEq

/-- `DatePicker`'s `toSlackElement`. -/
def datePickerToSlackElement (action initialDate : Option String)
    (placeholder : Option TextObj) (confirm : Option ConfirmInst) : DatePickerInst :=
  { type := "datepicker", initial_date := initialDate, action_id := action,
    placeholder := coercePlain placeholder, confirm := confirm }

/-- `options.map(o => ({ ...o, url: undefined })).find(o => o.isSelected())`
over a resolved `fields` array (RadioButtons and the ungrouped static
SelectMenu path).  The spread never fails, but calling `isSelected()` on an
`OptionGroup` instance — which has no such method — throws. -/
def findSelectedChild : List ResolvedChild → Except RtError (Option OptionInst)
  | [] => Except.ok none
  | ResolvedChild.opt o :: rest =>
      if o.isSelected then Except.ok (some (clearUrl o)) else findSelectedChild rest
  | ResolvedChild.group _ :: _ => Except.error RtError.typeError

/-- Selection of all selected options with `url` cleared, over a resolved
`fields` array.  Checkboxes runs `filter(isSelected)` then maps the
url-clearing spread; the ungrouped static MultiSelectMenu path maps first and
filters afterwards — both produce this list and both call `isSelected()` on
every element, so a group anywhere throws. -/
def filterSelectedChild : List ResolvedChild → Except RtError (List OptionInst)
  | [] => Except.ok []
  | ResolvedChild.opt o :: rest =>
      (filterSelectedChild rest).map fun r =>
        if o.isSelected then clearUrl o :: r else r
  | ResolvedChild.group _ :: _ => Except.error RtError.typeError

/-- The grouped flattening
`optionsOrGroups.reduce((acc, group) => { acc.push(...group.options); return acc }, [])`:
every element's `options` array is spread in order, so a flat `Option` in the
list — whose `options` field is `undefined` — throws. -/
def flattenGroups : List ResolvedChild → Except RtError (List OptionInst)
  | [] => Except.ok []
  | ResolvedChild.group g :: rest => (flattenGroups rest).map fun r => g.options ++ r
  | ResolvedChild.opt _ :: _ => Except.error RtError.typeError

/-- The static single-select extraction: grouping is detected by testing
`optionsOrGroups[0].isOptionGroup` only; if grouped, groups are flattened
first, then the url-cleared options are searched for the first selected
one. -/
def staticInitialOption (l : List ResolvedChild) : Except RtError (Option OptionInst) :=
  match l.head? with
  | some (ResolvedChild.group _) =>
      (flattenGroups l).map fun opts => (opts.map clearUrl).find? (fun o => o.isSelected)
  | _ => findSelectedChild l

/-- The static multi-select extraction: same first-element grouping test,
then url-clearing and `filter(isSelected)`. -/
def staticInitialOptions (l : List ResolvedChild) : Except RtError (List OptionInst) :=
  match l.head? with
  | some (ResolvedChild.group _) =>
      (flattenGroups l).map fun opts => (opts.map clearUrl).filter (fun o => o.isSelected)
  | _ => filterSelectedChild l

/-- A resolved `Checkboxes` element (the `options` array is filled by the
engine appending children and is not modelled). -/
structure CheckboxesInst where
  type : String := "checkboxes"
  action_id : Option String := none
  options : List ResolvedChild := []
  initial_options : Option (List OptionInst) := none
  confirm : Option ConfirmInst := none
deriving Repr, DecidableEq

/-- `Checkboxes`' `toSlackElement`: when the collected `fields` array exists,
filters it for selected options (calling `isSelected()` on every element, so
a grouped child throws), strips `url` from each, and stores the result in
`initial_options` — or leaves it `undefined` when the result is empty. -/
def checkboxesToSlackElement (action : Option String) (fields : Option (List ResolvedChild))
    (confirm : Option ConfirmInst) : Except RtError CheckboxesInst :=
  match fields with
  | some l =>
      (filterSelectedChild l).map fun sel =>
        { type := "checkboxes", action_id := action, options := [],
          initial_options := if sel.isEmpty then none else some sel, confirm := confirm }
  | none =>
      Except.ok { type := "checkboxes", action_id := action, options := [],
                  initial_options := none, confirm := confirm }

/-- A resolved `RadioButtons` element. -/
structure RadioButtonsInst where
  type : String := "radio_buttons"
  action_id : Option String := none
  options : List ResolvedChild := []
  initial_option : Option OptionInst := none
  confirm : Option ConfirmInst := none
deriving Repr, DecidableEq

/-- `RadioButtons`' `toSlackElement`: when the collected `fields` array
exists, maps the url-clearing spread over it and takes the first element
whose `isSelected()` is truthy (`find` semantics, first match); no group
handling is performed, so a grouped child reached by the search throws. -/
def radioButtonsToSlackElement (action : Option String) (fields : Option (List ResolvedChild))
    (confirm : Option ConfirmInst) : Except RtError RadioButtonsInst :=
  match fields with
  | some l =>
      (findSelectedChild l).map fun sel =>
        { type := "radio_buttons", action_id := action, options := [],
          initial_option := sel, confirm := confirm }
  | none =>
      Except.ok { type := "radio_buttons", action_id := action, options := [],
                  initial_option := none, confirm := confirm }

/-- The `filter` prop of the `conversations` select variants. -/
structure FilterProps where
  includeKinds : Option (List String) := none
  excludeExternalSharedChannels : Option Bool := none
  excludeBotUsers : Option Bool := none
deriving Repr, DecidableEq

/-- The wire `filter` object: the three sub-flags copied through under their
API-cased names (`include` is spelled `includeKinds` here because `include`
is a Lean keyword). -/
structure FilterInst where
  includeKinds : Option (List String) := none
  exclude_external_shared_channels : Option Bool := none
  exclude_bot_users : Option Bool := none
deriving Repr, DecidableEq

/-- The `if (props.filter)` copy of the conversations filter. -/
def filterToSlack (f : FilterProps) : FilterInst :=
  { includeKinds := f.includeKinds,
    exclude_external_shared_channels := f.excludeExternalSharedChannels,
    exclude_bot_users := f.excludeBotUsers }

/-- A resolved single `SelectMenu` element.  `onSearchOptions` models the
callback copied verbatim onto the instance
(`onSearchOptions: props.onSearchOptions`); only its presence is observable,
so `Unit` stands for the closure. -/
structure SelectMenuInst where
  type : String
  action_id : Option String := none
  onSearchOptions : Option Unit := none
  initial_option : Option OptionInst := none
  min_query_length : Option Nat := none
  initial_user : Option String := none
  initial_channel : Option String := none
  initial_conversation : Option String := none
  filter : Option FilterInst := none
  confirm : Option ConfirmInst := none
  placeholder : Option TextObj := none
deriving Repr, DecidableEq

/-- The static branch guard of `SelectMenu`:
`props.type === "static" && Array.isArray(optionsOrGroups) && optionsOrGroups.length`,
followed by the selection extraction; any other shape leaves
`initial_option` unset. -/
def selectMenuStaticSel (ty : String) (fields : Option (List ResolvedChild)) :
    Except RtError (Option OptionInst) :=
  match fields with
  | some l =>
      if ty = "static" then
        if l.isEmpty then Except.ok none else staticInitialOption l
      else Except.ok none
  | none => Except.ok none

/-- `SelectMenu`'s `toSlackElement`: synthesizes `type` as
`props.type + "_select"`, runs the static extraction, then the
`external` / `users` / `channels` / `conversations` branches, and finally
assigns `confirm` and the plain-text-coerced `placeholder`.  An unknown type
tag simply matches no branch. -/
def selectMenuToSlackElement (ty : String) (action : Option String)
    (onSearchOptions : Option Unit) (minQueryLength : Option Nat)
    (initialUser initialChannel initialConversation : Option String)
    (filter : Option FilterProps) (confirm : Option ConfirmInst)
    (placeholder : Option TextObj) (fields : Option (List ResolvedChild))
    (initialOption : Option OptionInst) : Except RtError SelectMenuInst :=
  (selectMenuStaticSel ty fields).map fun staticSel =>
    let inst : SelectMenuInst :=
      { type := ty ++ "_select", action_id := action, onSearchOptions := onSearchOptions,
        initial_option := staticSel }
    let inst :=
      if ty = "external" then
        { inst with
            initial_option :=
              match initialOption with
              | some o => some (clearUrl o)
              | none => inst.initial_option,
            min_query_length := minQueryLength }
      else inst
    let inst := if ty = "users" then { inst with initial_user := initialUser } else inst
    let inst := if ty = "channels" then { inst with initial_channel := initialChannel } else inst
    let inst :=
      if ty = "conversations" then
        { inst with initial_conversation := initialConversation,
                    filter := filter.map filterToSlack }
      else inst
    { inst with confirm := confirm, placeholder := coercePlain placeholder }

/-- A resolved `MultiSelectMenu` element.  `initial_options` holds resolved
child instances (the static branch stores url-cleared options; the external
branch stores a raw `fields` array). -/
structure MultiSelectMenuInst where
  type : String
  action_id : Option String := none
  max_selected_items : Option Nat := none
  onSearchOptions : Option Unit := none
  initial_options : Option (List ResolvedChild) := none
  min_query_length : Option Nat := none
  initial_users : Option (List String) := none
  initial_channels : Option (List String) := none
  initial_conversations : Option (List String) := none
  filter : Option FilterInst := none
  confirm : Option ConfirmInst := none
  placeholder : Option TextObj := none
deriving Repr, DecidableEq

/-- The static branch guard and extraction of `MultiSelectMenu`. -/
def multiSelectMenuStaticSel (ty : String) (fields : Option (List ResolvedChild)) :
    Except RtError (Option (List OptionInst)) :=
  match fields with
  | some l =>
      if ty = "static" then
        if l.isEmpty then Except.ok none else (staticInitialOptions l).map some
      else Except.ok none
  | none => Except.ok none

/-- `MultiSelectMenu`'s `toSlackElement`.  NOTE the source's `external`
branch: the variable it assigns to `initial_options` is the `fields` array of
a second `reconcile` pass over `props.children` (the destructuring names it
`initialOptions`), so the `initialOptions` prop itself — kept here as a
parameter to make that visible — is never read. -/
def multiSelectMenuToSlackElement (ty : String) (action : Option String)
    (maxSelectedItems : Option Nat) (onSearchOptions : Option Unit)
    (minQueryLength : Option Nat)
    (initialUsers initialChannels initialConversations : Option (List String))
    (filter : Option FilterProps) (confirm : Option ConfirmInst)
    (placeholder : Option TextObj) (fields : Option (List ResolvedChild))
    (initialOptions : Option (List OptionInst)) : Except RtError MultiSelectMenuInst :=
  (multiSelectMenuStaticSel ty fields).map fun staticSel =>
    let inst : MultiSelectMenuInst :=
      { type := "multi_" ++ ty ++ "_select", action_id := action,
        max_selected_items := maxSelectedItems, onSearchOptions := onSearchOptions,
        initial_options := staticSel.map fun sel => sel.map ResolvedChild.opt }
    let inst :=
      if ty = "external" then
        { inst with initial_options := fields, min_query_length := minQueryLength }
      else inst
    let inst := if ty = "users" then { inst with initial_users := initialUsers } else inst
    let inst := if ty = "channels" then { inst with initial_channels := initialChannels } else inst
    let inst :=
      if ty = "conversations" then
        { inst with initial_conversations := initialConversations,
                    filter := filter.map filterToSlack }
      else inst
    { inst with confirm := confirm, placeholder := coercePlain placeholder }

/-- On an all-options `fields` array, the radio/single-select search returns
the first selected option, url-cleared. -/
theorem findSelectedChild_map_opt (opts : List OptionInst) :
    findSelectedChild (opts.map ResolvedChild.opt) =
      Except.ok (((opts.filter fun o => o.isSelected).head?).map clearUrl) := by
  induction opts with
  | nil => rfl
  | cons o rest ih =>
      by_cases h : o.isSelected <;>
        simp [findSelectedChild, h, ih, List.filter_cons]

/-- On an all-options `fields` array, the multi-select/checkbox extraction
returns the selected options in order, url-cleared. -/
theorem filterSelectedChild_map_opt (opts : List OptionInst) :
    filterSelectedChild (opts.map ResolvedChild.opt) =
      Except.ok ((opts.filter fun o => o.isSelected).map clearUrl) := by
  induction opts with
  | nil => rfl
  | cons o rest ih =>
      by_cases h : o.isSelected <;>
        simp [filterSelectedChild, h, ih, List.filter_cons, Except.map]

/-- On an all-groups `fields` array, flattening concatenates every group's
own options in declaration order. -/
theorem flattenGroups_map_group (gs : List OptionGroupInst) :
    flattenGroups (gs.map ResolvedChild.group) =
      Except.ok ((gs.map fun g => g.options).flatten) := by
  induction gs with
  | nil => rfl
  | cons g rest ih => simp [flattenGroups, ih, Except.map]

/-- Url-clearing does not change selectedness, so searching the url-cleared
copies finds the url-cleared first selected option. -/
theorem find?_map_clearUrl (opts : List OptionInst) :
    (opts.map clearUrl).find? (fun o => o.isSelected) =
      ((opts.filter fun o => o.isSelected).head?).map clearUrl := by
  induction opts with
  | nil => rfl
  | cons o rest ih =>
      by_cases h : o.isSelected <;>
        simp [List.find?, clearUrl, h, ih, List.filter_cons]

/-- Url-clearing commutes with selection filtering. -/
theorem filter_map_clearUrl (opts : List OptionInst) :
    (opts.map clearUrl).filter (fun o => o.isSelected) =
      (opts.filter fun o => o.isSelected).map clearUrl := by
  induction opts with
  | nil => rfl
  | cons o rest ih =>
      by_cases h : o.isSelected <;>
        simp [List.filter_cons, clearUrl, h, ih]

/-- C7: for every Text node the kind defaults to plain_text when
unspecified; the output carries the `verbatim` field if and only if the kind
is `mrkdwn`, and carries the `emoji` field if and only if the kind is
`plain_text`. -/
theorem c7_text_kind_default_and_fields :
    (∀ (s : String) (e v : Option Bool),
        (textToSlackElement { text := s, emoji := e, verbatim := v }).type = "plain_text") ∧
    (∀ p : TextProps,
        ((textToSlackElement p).verbatim.isSome ↔ p.type = TextType.mrkdwn) ∧
        ((textToSlackElement p).emoji.isSome ↔ p.type = TextType.plain_text)) := by
  refine ⟨fun s e v => rfl, fun p => ?_⟩
  cases h : p.type <;> simp [textToSlackElement, h, TextType.toStr]

/-- C10: Confirm's conversion rule coerces `title`, `confirm` and `deny` to
plain_text unconditionally, without the existence guard the other components
use, so it succeeds exactly when all three resolve to defined values; under
that precondition the error branch is unreachable and the coerced instance
is produced. -/
theorem c10_confirm_requires_all_three :
    (∀ (t c d : Option TextObj) (s : Option String),
        exceptIsOk (confirmToSlackElement t c d s) = (t.isSome && c.isSome && d.isSome)) ∧
    (∀ (a b e : TextObj) (s : Option String),
        confirmToSlackElement (some a) (some b) (some e) s =
          Except.ok { isConfirm := true, style := s, title := setPlain a,
                      confirm := setPlain b, deny := setPlain e }) := by
  refine ⟨fun t c d s => ?_, fun a b e s => rfl⟩
  cases t <;> cases c <;> cases d <;> rfl

/-- C6 counterexample: a Section whose resolved text child came from a
`Text` node declaring the markdown kind keeps kind `mrkdwn` in the Section's
output — the coercion guard tests for the literal type `"text"`, which a
`Text` node never produces. -/
theorem c6_counterexample_mrkdwn_kept :
    ((sectionToSlackElement none
        (some (textToSlackElement { text := "x", type := TextType.mrkdwn }))).text).map
        TextObj.type = some "mrkdwn" ∧
    ¬ ((sectionToSlackElement none
        (some (textToSlackElement { text := "x", type := TextType.mrkdwn }))).text).map
        TextObj.type = some "plain_text" := by
  refine ⟨rfl, by decide⟩

/-- C6 amended: Section coerces its resolved text to plain_text exactly when
the resolved value's type is the raw-text marker `"text"` (the shape bare
string children reconcile to); a text child produced by the `Text` component
keeps its declared kind, whether plain_text or mrkdwn. -/
theorem c6_amended_section_coerces_raw_text_only :
    (∀ (a : Option Unit) (t : TextObj),
        (sectionToSlackElement a (some t)).text =
          some (if t.type = "text" then setPlain t else t)) ∧
    (∀ (a : Option Unit) (p : TextProps),
        ((sectionToSlackElement a (some (textToSlackElement p))).text).map TextObj.type =
          some p.type.toStr) := by
  constructor
  · intro a t
    by_cases h : t.type = "text" <;> simp [sectionToSlackElement, h]
  · intro a p
    cases h : p.type <;>
      simp [sectionToSlackElement, textToSlackElement, h, TextType.toStr]

/-- C5: evaluation at the failing input.  A MultiSelectMenu of type
`external` given `initialOptions` (one option, with a url) and no children
emits `initial_options` as `undefined`: the source assigns the `fields` of a
second reconcile pass over `props.children` (destructured into a variable
named `initialOptions`) and never reads the `initialOptions` prop — the
output is identical whether or not the prop is supplied.  The single
SelectMenu, by contrast, does take `initial_option` from its `initialOption`
prop, url-stripped, as the claim states. -/
theorem c5_multi_external_ignores_initial_options_prop :
    (multiSelectMenuToSlackElement "external" (some "a") none (some ()) (some 2)
        none none none none none none none
        (some [{ isSelected := true, value := some "v", url := some "u" }])).map
        (fun i => i.initial_options) = Except.ok none ∧
    multiSelectMenuToSlackElement "external" (some "a") none (some ()) (some 2)
        none none none none none none none
        (some [{ isSelected := true, value := some "v", url := some "u" }]) =
      multiSelectMenuToSlackElement "external" (some "a") none (some ()) (some 2)
        none none none none none none none none ∧
    (selectMenuToSlackElement "external" (some "a") (some ()) (some 2)
        none none none none none none none
        (some { isSelected := true, value := some "v", url := some "u" })).map
        (fun i => i.initial_option) =
      Except.ok (some { isSelected := true, value := some "v", url := none }) := by
  refine ⟨rfl, rfl, rfl⟩

/-- C8 counterexample: conversion does not fail on the claim's missing
required props or on unknown type tags.  A Button with no `action` converts
successfully with `action_id` undefined, an Option with no `value` converts
successfully with `value` undefined, a SelectMenu whose type tag is
`"bogus"` converts successfully to type `"bogus_select"`, and a
MultiSelectMenu with the same tag to type `"multi_bogus_select"`, each with
no variant branch applied — no ShapeError or TypeError is raised at
conversion time for any of these inputs. -/
theorem c8_counterexample_no_conversion_failure :
    buttonToSlackElement none none none none none =
      { type := "button", action_id := none, style := none, url := none,
        text := { type := "plain_text", text := "", emoji := some none },
        confirm := none } ∧
    optionToSlackElement none none none none =
      { isSelected := false, isOption := true, value := none, url := none,
        description := none } ∧
    selectMenuToSlackElement "bogus" none none none none none none none none none
        none none =
      Except.ok { type := "bogus_select" } ∧
    multiSelectMenuToSlackElement "bogus" none none none none none none none none
        none none none none =
      Except.ok { type := "multi_bogus_select" } := by
  refine ⟨rfl, rfl, rfl, rfl⟩

/-- C8 amended: a Button with no `action` and an Option with no `value` do
not fail with a ShapeError; the missing prop is copied through as an
undefined field (`action_id`, `value`) and conversion succeeds, enforcement
of those props being static (type layer) only.  A SelectMenu whose type tag
is not a declared variant does not fail with a TypeError-equivalent: it
converts to `"<tag>_select"` — and a MultiSelectMenu to
`"multi_<tag>_select"` — with every variant branch skipped.  (This covers
the claim's named nodes; it does not extend to Confirm, whose conversion
does throw synchronously when a required text prop resolves to undefined.) -/
theorem c8_amended_no_runtime_validation :
    (∀ (s u : Option String) (e : Option Bool) (c : Option ConfirmInst),
        (buttonToSlackElement none s u e c).action_id = none ∧
        (buttonToSlackElement none s u e c).type = "button") ∧
    (∀ (sel : Option Bool) (u : Option String) (d : Option TextObj),
        (optionToSlackElement sel none u d).value = none ∧
        (optionToSlackElement sel none u d).isOption = true) ∧
    (∀ (ty : String) (a : Option String) (os : Option Unit) (mq : Option Nat)
        (iu ic icv : Option String) (f : Option FilterProps) (c : Option ConfirmInst)
        (p : Option TextObj) (io : Option OptionInst),
        ty ≠ "static" → ty ≠ "external" → ty ≠ "users" → ty ≠ "channels" →
        ty ≠ "conversations" →
        selectMenuToSlackElement ty a os mq iu ic icv f c p none io =
          Except.ok { type := ty ++ "_select", action_id := a, onSearchOptions := os,
                      confirm := c, placeholder := coercePlain p }) ∧
    (∀ (ty : String) (a : Option String) (mx : Option Nat) (os : Option Unit)
        (mq : Option Nat) (iu ic icv : Option (List String)) (f : Option FilterProps)
        (c : Option ConfirmInst) (p : Option TextObj) (io : Option (List OptionInst)),
        ty ≠ "static" → ty ≠ "external" → ty ≠ "users" → ty ≠ "channels" →
        ty ≠ "conversations" →
        multiSelectMenuToSlackElement ty a mx os mq iu ic icv f c p none io =
          Except.ok { type := "multi_" ++ ty ++ "_select", action_id := a,
                      max_selected_items := mx, onSearchOptions := os,
                      confirm := c, placeholder := coercePlain p }) := by
  refine ⟨fun s u e c => ⟨rfl, rfl⟩, fun sel u d => ⟨rfl, rfl⟩, ?_, ?_⟩
  · intro ty a os mq iu ic icv f c p io h1 h2 h3 h4 h5
    simp [selectMenuToSlackElement, selectMenuStaticSel, Except.map, h1, h2, h3, h4, h5]
  · intro ty a mx os mq iu ic icv f c p io h1 h2 h3 h4 h5
    simp [multiSelectMenuToSlackElement, multiSelectMenuStaticSel, Except.map,
      h1, h2, h3, h4, h5]

/-- C8 witness for the amended theorem: instantiation of both
hypothesis-bearing conjuncts at the tag `"bogus"`. -/
theorem c8_amended_no_runtime_validation_witness :
    ("bogus" ≠ "static" ∧ "bogus" ≠ "external" ∧ "bogus" ≠ "users" ∧
        "bogus" ≠ "channels" ∧ "bogus" ≠ "conversations") ∧
    selectMenuToSlackElement "bogus" (some "a") none none none none none none none
        (some { type := "mrkdwn", text := "x" }) none none =
      Except.ok { type := "bogus" ++ "_select", action_id := some "a",
                  onSearchOptions := none, confirm := none,
                  placeholder := coercePlain (some { type := "mrkdwn", text := "x" }) } ∧
    multiSelectMenuToSlackElement "bogus" (some "a") (some 3) none none none none
        none none none (some { type := "mrkdwn", text := "x" }) none none =
      Except.ok { type := "multi_" ++ "bogus" ++ "_select", action_id := some "a",
                  max_selected_items := some 3, onSearchOptions := none,
                  confirm := none,
                  placeholder := coercePlain (some { type := "mrkdwn", text := "x" }) } :=
  ⟨⟨by decide, by decide, by decide, by decide, by decide⟩,
    c8_amended_no_runtime_validation.2.2.1 "bogus" (some "a") none none none none
      none none none (some { type := "mrkdwn", text := "x" }) none (by decide)
      (by decide) (by decide) (by decide) (by decide),
    c8_amended_no_runtime_validation.2.2.2 "bogus" (some "a") (some 3) none none
      none none none none none (some { type := "mrkdwn", text := "x" }) none
      (by decide) (by decide) (by decide) (by decide) (by decide)⟩

/-- C9 counterexample: emitted elements do carry function-valued non-schema
fields.  An external SelectMenu's output carries a defined `onSearchOptions`
callback; a Confirm object reachable through a Button's `confirm` field
carries the `isConfirm` marker; a RadioButtons `initial_option` retains the
`isOption` and `isSelected` markers through url-stripping. -/
theorem c9_counterexample_marker_fields_emitted :
    (selectMenuToSlackElement "external" (some "a") (some ()) none none none none
        none none (some { type := "plain_text", text := "p" }) none none).map
        (fun i => i.onSearchOptions) = Except.ok (some ()) ∧
    (buttonToSlackElement (some "go") none none none
        (some { title := { type := "plain_text", text := "t" },
                confirm := { type := "plain_text", text := "c" },
                deny := { type := "plain_text", text := "d" } })).confirm.map
        (fun i => i.isConfirm) = some true ∧
    (radioButtonsToSlackElement (some "r")
        (some [ResolvedChild.opt { isSelected := true, value := some "v", url := some "u" }])
        none).map (fun i => i.initial_option.map fun o => (o.isOption, o.isSelected)) =
      Except.ok (some (true, true)) := by
  refine ⟨rfl, rfl, rfl⟩

/-- C9 amended: in-memory elements carry the behavioral marker and callback
fields the source attaches (`onSearchOptions` copied verbatim onto select
menus, `isConfirm` on confirm objects, `isOption`/`isSelected` on options,
surviving url-stripping into initial selections); being function-valued they
vanish under JSON serialization, and the remaining fields use the wire
schema's names. -/
theorem c9_amended_marker_fields :
    (∀ (a : Option String) (os : Option Unit) (mq : Option Nat) (iu ic icv : Option String)
        (f : Option FilterProps) (c : Option ConfirmInst) (p : Option TextObj)
        (fl : Option (List ResolvedChild)) (io : Option OptionInst),
        (selectMenuToSlackElement "external" a os mq iu ic icv f c p fl io).map
            (fun i => i.onSearchOptions) = Except.ok os) ∧
    (∀ (t c d : TextObj) (s : Option String),
        (confirmToSlackElement (some t) (some c) (some d) s).map (fun i => i.isConfirm) =
          Except.ok true) ∧
    (∀ o : OptionInst,
        (clearUrl o).isOption = o.isOption ∧ (clearUrl o).isSelected = o.isSelected) := by
  refine ⟨?_, fun t c d s => rfl, fun o => ⟨rfl, rfl⟩⟩
  intro a os mq iu ic icv f c p fl io
  cases fl <;> simp [selectMenuToSlackElement, selectMenuStaticSel, Except.map]

/-- C1: for every composite node with a text-bearing prop in {label, hint,
placeholder, title, submit, close, confirm.title, confirm.confirm,
confirm.deny} — Modal, Home, Input, TextField, DatePicker, SelectMenu,
MultiSelectMenu, OptionGroup, Confirm — whenever the prop is supplied its
resolved value has kind plain_text in the output, regardless of the kind the
input declared. -/
theorem c1_text_bearing_props_coerced_plain :
    (∀ t s c : TextObj,
        (modalToSlackElement (some t) (some s) (some c)).title.map TextObj.type =
            some "plain_text" ∧
        (modalToSlackElement (some t) (some s) (some c)).submit.map TextObj.type =
            some "plain_text" ∧
        (modalToSlackElement (some t) (some s) (some c)).close.map TextObj.type =
            some "plain_text") ∧
    (∀ t : TextObj,
        (homeToSlackElement (some t)).title.map TextObj.type = some "plain_text") ∧
    (∀ (b : Option Bool) (h l : TextObj),
        (inputToSlackElement b (some h) (some l)).label.map TextObj.type =
            some "plain_text" ∧
        (inputToSlackElement b (some h) (some l)).hint.map TextObj.type =
            some "plain_text") ∧
    (∀ (a iv : Option String) (mx mn : Option Nat) (ml : Option Bool) (t : TextObj),
        (textFieldToSlackElement a iv mx mn ml (some t)).placeholder.map TextObj.type =
          some "plain_text") ∧
    (∀ (a d : Option String) (t : TextObj) (c : Option ConfirmInst),
        (datePickerToSlackElement a d (some t) c).placeholder.map TextObj.type =
          some "plain_text") ∧
    (∀ t : TextObj,
        (optionGroupToSlackElement (some t)).label.map TextObj.type = some "plain_text") ∧
    (∀ (a b e : TextObj) (s : Option String),
        (confirmToSlackElement (some a) (some b) (some e) s).map
            (fun i => (i.title.type, i.confirm.type, i.deny.type)) =
          Except.ok ("plain_text", "plain_text", "plain_text")) ∧
    (∀ (ty : String) (a : Option String) (os : Option Unit) (mq : Option Nat)
        (iu ic icv : Option String) (f : Option FilterProps) (c : Option ConfirmInst)
        (t : TextObj) (fl : Option (List ResolvedChild)) (io : Option OptionInst)
        (i : SelectMenuInst),
        selectMenuToSlackElement ty a os mq iu ic icv f c (some t) fl io = Except.ok i →
        i.placeholder.map TextObj.type = some "plain_text") ∧
    (∀ (ty : String) (a : Option String) (mx : Option Nat) (os : Option Unit)
        (mq : Option Nat) (iu ic icv : Option (List String)) (f : Option FilterProps)
        (c : Option ConfirmInst) (t : TextObj) (fl : Option (List ResolvedChild))
        (io : Option (List OptionInst)) (i : MultiSelectMenuInst),
        multiSelectMenuToSlackElement ty a mx os mq iu ic icv f c (some t) fl io =
            Except.ok i →
        i.placeholder.map TextObj.type = some "plain_text") := by
  refine ⟨fun t s c => ⟨rfl, rfl, rfl⟩, fun t => rfl, fun b h l => ⟨rfl, rfl⟩,
    fun a iv mx mn ml t => rfl, fun a d t c => rfl, fun t => rfl, fun a b e s => rfl,
    ?_, ?_⟩
  · intro ty a os mq iu ic icv f c t fl io i hok
    cases hs : selectMenuStaticSel ty fl with
    | error err => simp [selectMenuToSlackElement, hs, Except.map] at hok
    | ok sel =>
        simp [selectMenuToSlackElement, hs, Except.map] at hok
        subst hok
        simp [coercePlain, setPlain]
  · intro ty a mx os mq iu ic icv f c t fl io i hok
    cases hs : multiSelectMenuStaticSel ty fl with
    | error err => simp [multiSelectMenuToSlackElement, hs, Except.map] at hok
    | ok sel =>
        simp [multiSelectMenuToSlackElement, hs, Except.map] at hok
        subst hok
        simp [coercePlain, setPlain]

/-- C1 witness: instantiation of the hypothesis-bearing select-menu conjuncts
at a concrete markdown-declared placeholder, which comes out plain_text. -/
theorem c1_text_bearing_props_coerced_plain_witness :
    (selectMenuToSlackElement "users" none none none none none none none none
        (some { type := "mrkdwn", text := "x" }) none none =
      Except.ok { type := "users_select",
                  placeholder := some { type := "plain_text", text := "x" } }) ∧
    ({ type := "users_select",
       placeholder := some { type := "plain_text", text := "x" } :
        SelectMenuInst }).placeholder.map TextObj.type = some "plain_text" ∧
    (multiSelectMenuToSlackElement "users" none none none none none none none none
        none (some { type := "mrkdwn", text := "x" }) none none =
      Except.ok { type := "multi_users_select",
                  placeholder := some { type := "plain_text", text := "x" } }) ∧
    ({ type := "multi_users_select",
       placeholder := some { type := "plain_text", text := "x" } :
        MultiSelectMenuInst }).placeholder.map TextObj.type = some "plain_text" :=
  ⟨rfl,
    c1_text_bearing_props_coerced_plain.2.2.2.2.2.2.2.1 "users" none none none none
      none none none none { type := "mrkdwn", text := "x" } none none
      { type := "users_select",
        placeholder := some { type := "plain_text", text := "x" } } rfl,
    rfl,
    c1_text_bearing_props_coerced_plain.2.2.2.2.2.2.2.2 "users" none none none none
      none none none none none { type := "mrkdwn", text := "x" } none none
      { type := "multi_users_select",
        placeholder := some { type := "plain_text", text := "x" } } rfl⟩

/-- C2 counterexample: Checkboxes given resolved OptionGroup children does
not detect grouping or flatten at all — filtering calls `isSelected()` on the
group object, which has no such method, and conversion throws instead of
producing the concatenated option list. -/
theorem c2_counterexample_checkboxes_group_throws :
    checkboxesToSlackElement (some "a")
        (some [ResolvedChild.group
          { options := [{ isSelected := true, value := some "v" }] }]) none =
      Except.error RtError.typeError := rfl


/-- On a grouped, nonempty `fields` array the static single-select
extraction yields the first selected option of the concatenated group
options, url-cleared. -/
theorem staticInitialOption_groups (g : OptionGroupInst) (gs : List OptionGroupInst) :
    staticInitialOption ((g :: gs).map ResolvedChild.group) =
      Except.ok (((((g :: gs).map fun x => x.options).flatten).filter
        (fun o => o.isSelected)).head?.map clearUrl) := by
  have h := flattenGroups_map_group (g :: gs)
  simp only [List.map_cons] at h ⊢
  simp only [staticInitialOption, List.head?_cons]
  rw [h]
  simp only [Except.map]
  rw [find?_map_clearUrl]

/-- On a grouped, nonempty `fields` array the static multi-select extraction
yields all selected options of the concatenated group options, url-cleared,
in order. -/
theorem staticInitialOptions_groups (g : OptionGroupInst) (gs : List OptionGroupInst) :
    staticInitialOptions ((g :: gs).map ResolvedChild.group) =
      Except.ok (((((g :: gs).map fun x => x.options).flatten).filter
        (fun o => o.isSelected)).map clearUrl) := by
  have h := flattenGroups_map_group (g :: gs)
  simp only [List.map_cons] at h ⊢
  simp only [staticInitialOptions, List.head?_cons]
  rw [h]
  simp only [Except.map]
  rw [filter_map_clearUrl]

/-- On a flat, nonempty `fields` array the static single-select extraction
yields the first selected option, url-cleared. -/
theorem staticInitialOption_opts (o : OptionInst) (opts : List OptionInst) :
    staticInitialOption ((o :: opts).map ResolvedChild.opt) =
      Except.ok ((((o :: opts).filter fun x => x.isSelected).head?).map clearUrl) := by
  simp only [staticInitialOption, List.map_cons, List.head?_cons]
  exact findSelectedChild_map_opt (o :: opts)

/-- On a flat, nonempty `fields` array the static multi-select extraction
yields all selected options, url-cleared, in order. -/
theorem staticInitialOptions_opts (o : OptionInst) (opts : List OptionInst) :
    staticInitialOptions ((o :: opts).map ResolvedChild.opt) =
      Except.ok (((o :: opts).filter fun x => x.isSelected).map clearUrl) := by
  simp only [staticInitialOptions, List.map_cons, List.head?_cons]
  exact filterSelectedChild_map_opt (o :: opts)

/-- Bridge: a static SelectMenu on a nonempty `fields` array exposes exactly
the extraction's result as `initial_option`. -/
theorem selectMenu_static_map_initial_option (a : Option String) (os : Option Unit)
    (mq : Option Nat) (iu ic icv : Option String) (f : Option FilterProps)
    (c : Option ConfirmInst) (p : Option TextObj) (io : Option OptionInst)
    (x : ResolvedChild) (l : List ResolvedChild) (sel : Option OptionInst)
    (h : staticInitialOption (x :: l) = Except.ok sel) :
    (selectMenuToSlackElement "static" a os mq iu ic icv f c p (some (x :: l)) io).map
      (fun i => i.initial_option) = Except.ok sel := by
  simp [selectMenuToSlackElement, selectMenuStaticSel, h, Except.map]

/-- Bridge: a static MultiSelectMenu on a nonempty `fields` array exposes
exactly the extraction's result as `initial_options`. -/
theorem multiSelectMenu_static_map_initial_options (a : Option String) (mx : Option Nat)
    (os : Option Unit) (mq : Option Nat) (iu ic icv : Option (List String))
    (f : Option FilterProps) (c : Option ConfirmInst) (p : Option TextObj)
    (io : Option (List OptionInst)) (x : ResolvedChild) (l : List ResolvedChild)
    (sel : List OptionInst) (h : staticInitialOptions (x :: l) = Except.ok sel) :
    (multiSelectMenuToSlackElement "static" a mx os mq iu ic icv f c p (some (x :: l))
        io).map (fun i => i.initial_options) =
      Except.ok (some (sel.map ResolvedChild.opt)) := by
  simp [multiSelectMenuToSlackElement, multiSelectMenuStaticSel, h, Except.map]

/-- C2 amended: grouping detection (by testing the first resolved element
only) and group flattening — concatenation of every group's options in
declaration order, with the flattened count equal to the sum of the group
counts — apply to static SelectMenu and MultiSelectMenu only; Checkboxes and
RadioButtons perform no group handling, and a resolved OptionGroup child
makes their conversion throw. -/
theorem c2_amended_flattening_menus_only :
    (∀ gs : List OptionGroupInst,
        flattenGroups (gs.map ResolvedChild.group) =
          Except.ok ((gs.map fun g => g.options).flatten) ∧
        (flattenGroups (gs.map ResolvedChild.group)).map List.length =
          Except.ok ((gs.map fun g => g.options.length).sum)) ∧
    (∀ (o : OptionInst) (rest : List ResolvedChild),
        staticInitialOption (ResolvedChild.opt o :: rest) =
          findSelectedChild (ResolvedChild.opt o :: rest) ∧
        staticInitialOptions (ResolvedChild.opt o :: rest) =
          filterSelectedChild (ResolvedChild.opt o :: rest)) ∧
    (∀ (a : Option String) (g : OptionGroupInst) (rest : List ResolvedChild)
        (c : Option ConfirmInst),
        checkboxesToSlackElement a (some (ResolvedChild.group g :: rest)) c =
          Except.error RtError.typeError ∧
        radioButtonsToSlackElement a (some (ResolvedChild.group g :: rest)) c =
          Except.error RtError.typeError) ∧
    (∀ (g : OptionGroupInst) (gs : List OptionGroupInst) (a : Option String)
        (os : Option Unit) (mq : Option Nat) (iu ic icv : Option String)
        (f : Option FilterProps) (c : Option ConfirmInst) (p : Option TextObj)
        (io : Option OptionInst),
        (selectMenuToSlackElement "static" a os mq iu ic icv f c p
            (some ((g :: gs).map ResolvedChild.group)) io).map
            (fun i => i.initial_option) =
          Except.ok (((((g :: gs).map fun x => x.options).flatten).filter
            (fun o => o.isSelected)).head?.map clearUrl)) ∧
    (∀ (g : OptionGroupInst) (gs : List OptionGroupInst) (a : Option String)
        (mx : Option Nat) (os : Option Unit) (mq : Option Nat)
        (iu ic icv : Option (List String)) (f : Option FilterProps)
        (c : Option ConfirmInst) (p : Option TextObj) (io : Option (List OptionInst)),
        (multiSelectMenuToSlackElement "static" a mx os mq iu ic icv f c p
            (some ((g :: gs).map ResolvedChild.group)) io).map
            (fun i => i.initial_options) =
          Except.ok (some ((((((g :: gs).map fun x => x.options).flatten).filter
            (fun o => o.isSelected)).map clearUrl).map ResolvedChild.opt))) := by
  refine ⟨?_, fun o rest => ⟨rfl, rfl⟩, ?_, ?_, ?_⟩
  · intro gs
    refine ⟨flattenGroups_map_group gs, ?_⟩
    rw [flattenGroups_map_group gs]
    simp only [Except.map, List.length_flatten, List.map_map]
    rw [Function.comp_def]
  · intro a g rest c
    constructor <;>
      simp [checkboxesToSlackElement, radioButtonsToSlackElement,
        filterSelectedChild, findSelectedChild, Except.map]
  · intro g gs a os mq iu ic icv f c p io
    have h := staticInitialOption_groups g gs
    rw [List.map_cons] at h ⊢
    exact selectMenu_static_map_initial_option a os mq iu ic icv f c p io _ _ _ h
  · intro g gs a mx os mq iu ic icv f c p io
    have h := staticInitialOptions_groups g gs
    rw [List.map_cons] at h ⊢
    exact multiSelectMenu_static_map_initial_options a mx os mq iu ic icv f c p io _ _ _ h

/-- C3: for RadioButtons and for single-select static SelectMenu, when more
than one option in the flattened option list is marked selected, the output's
`initial_option` is the first selected option in flattened order, with its
url field cleared. -/
theorem c3_first_selected_option_chosen :
    (∀ (a : Option String) (c : Option ConfirmInst) (opts : List OptionInst),
        1 < (opts.filter fun o => o.isSelected).length →
        (radioButtonsToSlackElement a (some (opts.map ResolvedChild.opt)) c).map
            (fun i => i.initial_option) =
          Except.ok (((opts.filter fun o => o.isSelected).head?).map clearUrl)) ∧
    (∀ (a : Option String) (os : Option Unit) (mq : Option Nat)
        (iu ic icv : Option String) (f : Option FilterProps) (c : Option ConfirmInst)
        (p : Option TextObj) (io : Option OptionInst) (opts : List OptionInst),
        1 < (opts.filter fun o => o.isSelected).length →
        (selectMenuToSlackElement "static" a os mq iu ic icv f c p
            (some (opts.map ResolvedChild.opt)) io).map (fun i => i.initial_option) =
          Except.ok (((opts.filter fun o => o.isSelected).head?).map clearUrl)) ∧
    (∀ (a : Option String) (os : Option Unit) (mq : Option Nat)
        (iu ic icv : Option String) (f : Option FilterProps) (c : Option ConfirmInst)
        (p : Option TextObj) (io : Option OptionInst) (gs : List OptionGroupInst),
        1 < (((gs.map fun x => x.options).flatten).filter
            (fun o => o.isSelected)).length →
        (selectMenuToSlackElement "static" a os mq iu ic icv f c p
            (some (gs.map ResolvedChild.group)) io).map (fun i => i.initial_option) =
          Except.ok (((((gs.map fun x => x.options).flatten).filter
            (fun o => o.isSelected)).head?).map clearUrl)) := by
  refine ⟨?_, ?_, ?_⟩
  · intro a c opts h
    simp only [radioButtonsToSlackElement, findSelectedChild_map_opt, Except.map]
  · intro a os mq iu ic icv f c p io opts h
    cases opts with
    | nil => simp at h
    | cons o rest =>
        have hs := staticInitialOption_opts o rest
        rw [List.map_cons] at hs ⊢
        exact selectMenu_static_map_initial_option a os mq iu ic icv f c p io _ _ _ hs
  · intro a os mq iu ic icv f c p io gs h
    cases gs with
    | nil => simp at h
    | cons g gs' =>
        have hs := staticInitialOption_groups g gs'
        rw [List.map_cons] at hs ⊢
        exact selectMenu_static_map_initial_option a os mq iu ic icv f c p io _ _ _ hs

/-- C3 witness: a flat RadioButtons list with two selected options; the first
one, url-cleared, is chosen. -/
theorem c3_first_selected_option_chosen_witness :
    1 < (([{ isSelected := true, value := some "b", url := some "u" },
           { isSelected := true, value := some "c" }] : List OptionInst).filter
          fun o => o.isSelected).length ∧
    (radioButtonsToSlackElement (some "r")
        (some (([{ isSelected := true, value := some "b", url := some "u" },
                 { isSelected := true, value := some "c" }] : List OptionInst).map
          ResolvedChild.opt)) none).map (fun i => i.initial_option) =
      Except.ok (((([{ isSelected := true, value := some "b", url := some "u" },
                     { isSelected := true, value := some "c" }] :
          List OptionInst).filter fun o => o.isSelected).head?).map clearUrl) :=
  ⟨by decide,
    c3_first_selected_option_chosen.1 (some "r") none
      [{ isSelected := true, value := some "b", url := some "u" },
       { isSelected := true, value := some "c" }] (by decide)⟩

/-- C4: for a static MultiSelectMenu with resolved children (flat options, or
option groups detected via the first element), `initial_options` equals
exactly the selected-marked subsequence of the flattened option list, in
preserved order, with the url field cleared on each element. -/
theorem c4_multi_static_initial_options_selected :
    (∀ (a : Option String) (mx : Option Nat) (os : Option Unit) (mq : Option Nat)
        (iu ic icv : Option (List String)) (f : Option FilterProps)
        (c : Option ConfirmInst) (p : Option TextObj) (io : Option (List OptionInst))
        (o : OptionInst) (opts : List OptionInst),
        (multiSelectMenuToSlackElement "static" a mx os mq iu ic icv f c p
            (some ((o :: opts).map ResolvedChild.opt)) io).map
            (fun i => i.initial_options) =
          Except.ok (some ((((o :: opts).filter fun x => x.isSelected).map
            clearUrl).map ResolvedChild.opt))) ∧
    (∀ (a : Option String) (mx : Option Nat) (os : Option Unit) (mq : Option Nat)
        (iu ic icv : Option (List String)) (f : Option FilterProps)
        (c : Option ConfirmInst) (p : Option TextObj) (io : Option (List OptionInst))
        (g : OptionGroupInst) (gs : List OptionGroupInst),
        (multiSelectMenuToSlackElement "static" a mx os mq iu ic icv f c p
            (some ((g :: gs).map ResolvedChild.group)) io).map
            (fun i => i.initial_options) =
          Except.ok (some ((((((g :: gs).map fun x => x.options).flatten).filter
            (fun o => o.isSelected)).map clearUrl).map ResolvedChild.opt))) := by
  constructor
  · intro a mx os mq iu ic icv f c p io o opts
    have hs := staticInitialOptions_opts o opts
    rw [List.map_cons] at hs ⊢
    exact multiSelectMenu_static_map_initial_options a mx os mq iu ic icv f c p io
      _ _ _ hs
  · intro a mx os mq iu ic icv f c p io g gs
    have hs := staticInitialOptions_groups g gs
    rw [List.map_cons] at hs ⊢
    exact multiSelectMenu_static_map_initial_options a mx os mq iu ic icv f c p io
      _ _ _ hs
